import Mathlib

/-!
Verification of the qwen aesthetic-analysis pipeline.

This development shallowly embeds the two core components of the repository:

* the per-chunk stream guard and resource-degradation control flow of
  MultimodalInference.generate_stream (src/multimodal_inference.py), and
* the structured response parser AestheticAnalyzer.parse_response
  (src/aesthetic_analyzer.py).

Text is modelled as List Char (Python strings are sequences of code points,
and Python len / slicing count code points).  Scores are modelled as exact
rationals: the only float operations the code performs are decimal-literal
parsing and max/min selection, which are exact.
-/

namespace QwenInfer

/-! ## Basic text utilities (Python str.strip, whitespace collapsing, search) -/

/-- Python str.strip(): remove leading and trailing whitespace. -/
def stripChars (l : List Char) : List Char :=
  ((l.dropWhile Char.isWhitespace).reverse.dropWhile Char.isWhitespace).reverse

/-- Helper for whitespace collapsing: the Bool records whether the previous
character was whitespace (in which case further whitespace is dropped). -/
def collapseAux : Bool → List Char → List Char
  | _, [] => []
  | prev, c :: rest =>
    if c.isWhitespace then
      if prev then collapseAux true rest else ' ' :: collapseAux true rest
    else c :: collapseAux false rest

/-- AestheticAnalyzer._clean_text: strip, then collapse every maximal
whitespace run to a single space (re.sub of a whitespace-run pattern). -/
def cleanText (l : List Char) : List Char :=
  collapseAux false (stripChars l)

/-- First index at which needle occurs as a contiguous sublist of hay
(Python str.find / the start of the first regex-literal match). -/
def findIdx : List Char → List Char → Option Nat
  | needle, [] => if needle.isPrefixOf ([] : List Char) then some 0 else none
  | needle, c :: rest =>
    if needle.isPrefixOf (c :: rest) then some 0
    else (findIdx needle rest).map (· + 1)

/-- Python slice l[a:b]. -/
def sliceCh (l : List Char) (a b : Nat) : List Char :=
  (l.take b).drop a

/-- Python substring containment (the `in` operator on strings). -/
def containsSub (needle hay : List Char) : Bool :=
  (findIdx needle hay).isSome

/-! ## StreamGuard

The inline repetition / degenerate-output detection of
MultimodalInference.generate_stream (src/multimodal_inference.py lines
294-322).  One observation step processes one emitted chunk: an empty chunk
is skipped entirely (the Python code guards the whole body with
`if response.text:`); otherwise, when stop detection is enabled, the chunk
is appended to the ring buffer of recent segments, the three stop conditions
are checked in source order, and on no stop the chunk is appended to the
accumulated text and yielded. -/

/-- Guard state: generated_text and recent_segments of generate_stream. -/
structure GuardState where
  generated_text : List Char
  recent_segments : List (List Char)
deriving DecidableEq

/-- Per-chunk verdict of the guard. -/
inductive Verdict where
  | CONTINUE
  | STOP
deriving DecidableEq

/-- Append to the ring buffer, evicting the oldest entries once the buffer
exceeds t entries (recent_segments = recent_segments[-repeat_threshold:]). -/
def ringAppend (t : Nat) (buf : List (List Char)) (c : List Char) : List (List Char) :=
  let segs0 := buf ++ [c]
  if segs0.length > t then segs0.drop (segs0.length - t) else segs0

/-- Long-span repetition condition: accumulated text longer than 50, its last
50 characters occur in the text with the trailing 50 removed, and the current
chunk is non-empty after stripping. -/
def longSpanHit (g c : List Char) : Prop :=
  g.length > 50 ∧
  (containsSub (g.drop (g.length - 50)) (g.take (g.length - 50)) = true) ∧
  0 < (stripChars c).length

instance (g c : List Char) : Decidable (longSpanHit g c) := by
  unfold longSpanHit; infer_instance

/-- len(set(recent_segments)) == 1: the buffer is non-empty and all entries
are equal. -/
def allSame : List (List Char) → Bool
  | [] => false
  | x :: xs => xs.all (· == x)

/-- Short-span saturation condition: the (already updated) ring buffer holds
at least t entries, all identical, and the current chunk's stripped length
exceeds 3. -/
def shortSpanHit (t : Nat) (segs : List (List Char)) (c : List Char) : Prop :=
  t ≤ segs.length ∧ allSame segs = true ∧ 3 < (stripChars c).length

instance (t : Nat) (segs : List (List Char)) (c : List Char) :
    Decidable (shortSpanHit t segs c) := by
  unfold shortSpanHit; infer_instance

/-- Degenerate-refusal condition: the accumulated text contains one of the
fixed denylist phrases and is longer than 20 characters. -/
def denyHit (g : List Char) : Prop :=
  (containsSub "请上传".data g = true ∨
   containsSub "上传照片".data g = true ∨
   containsSub "期待您的".data g = true) ∧
  20 < g.length

instance (g : List Char) : Decidable (denyHit g) := by
  unfold denyHit; infer_instance

/-- One observation step of the stream guard: parameter t is
repeat_threshold, sor is stop_on_repeat.  Returns the verdict for this chunk
together with the updated state. -/
def observe (t : Nat) (sor : Bool) (s : GuardState) (c : List Char) :
    Verdict × GuardState :=
  if c = [] then (.CONTINUE, s)
  else if sor then
    let segs := ringAppend t s.recent_segments c
    if longSpanHit s.generated_text c then (.STOP, ⟨s.generated_text, segs⟩)
    else if shortSpanHit t segs c then (.STOP, ⟨s.generated_text, segs⟩)
    else if denyHit s.generated_text then (.STOP, ⟨s.generated_text, segs⟩)
    else (.CONTINUE, ⟨s.generated_text ++ c, segs⟩)
  else (.CONTINUE, ⟨s.generated_text ++ c, s.recent_segments⟩)

/-- Run the guard over a list of chunks from a given state; returns the final
state, the chunks actually yielded, and whether the guard stopped early. -/
def guardRunFrom (t : Nat) (sor : Bool) :
    GuardState → List (List Char) → GuardState × List (List Char) × Bool
  | s, [] => (s, [], false)
  | s, c :: cs =>
    match observe t sor s c with
    | (.STOP, s') => (s', [], true)
    | (.CONTINUE, s') =>
      let r := guardRunFrom t sor s' cs
      (r.1, (if c = [] then r.2.1 else c :: r.2.1), r.2.2)

/-! ## ResponseParser

AestheticAnalyzer.parse_response (src/aesthetic_analyzer.py lines 60-196).
The concrete regular expressions of the source are translated into explicit
marker search / slice operations with the exact semantics of Python's re
module on these patterns (leftmost match, lazy groups stopping at the first
position where the following literal or lookahead matches, and a dollar
anchor matching at end of string or just before a trailing newline). -/

/-- Aesthetic score record (dataclass AestheticScore). -/
structure AestheticScore where
  composition : ℚ
  focal_length : ℚ
  contrast_exposure_brightness : ℚ
  overall : ℚ
deriving DecidableEq

/-- Analysis record (dataclass AestheticAnalysis). -/
structure AestheticAnalysis where
  composition_analysis : String
  focal_length_analysis : String
  contrast_exposure_brightness_analysis : String
  overall_evaluation : String
  suggestions : String
  scores : AestheticScore
deriving DecidableEq

/-- AestheticAnalyzer._get_default_analysis: the fixed fallback record. -/
def getDefaultAnalysis : AestheticAnalysis :=
  { composition_analysis := "构图分析暂不可用"
    focal_length_analysis := "焦段分析暂不可用"
    contrast_exposure_brightness_analysis := "对比度&曝光度&亮度分析暂不可用"
    overall_evaluation := "整体评价暂不可用"
    suggestions := "建议暂不可用"
    scores := ⟨5, 5, 5, 5⟩ }

/-- Python's dollar anchor (without MULTILINE): matches at the end of the
string, or just before a newline that ends the string. -/
def dollarOrStop (stops : List (List Char)) (l : List Char) (p : Nat) : Bool :=
  stops.any (fun s => s.isPrefixOf (l.drop p)) ||
  p == l.length ||
  (p + 1 == l.length && l.drop p == ['\n'])

/-- First position at or after start where one of the stop literals begins or
the dollar anchor matches; a lazy group followed by such a lookahead ends
exactly there. -/
def stopPos (stops : List (List Char)) (l : List Char) (start : Nat) : Nat :=
  (((List.range (l.length + 1)).find?
      (fun p => decide (start ≤ p) && dollarOrStop stops l p)).getD l.length)

/-- One sub-section extraction: the lazy group of a pattern of the shape
marker(.*?)(?=stop1|stop2|$), searched with DOTALL.  Returns the raw group
content of the leftmost match, or none when the marker does not occur. -/
def subsection (marker : List Char) (stops : List (List Char)) (content : List Char) :
    Option (List Char) :=
  match findIdx marker content with
  | none => none
  | some i =>
    let st := i + marker.length
    some (sliceCh content st (stopPos stops content st))

/-- The block between the dimension-analysis marker and the following
overall-score marker (pattern 维度分析与评分：(.*?)综合评分： with DOTALL):
the leftmost occurrence of the first marker, with the lazy group ending at
the first later occurrence of the second marker. -/
def dimensionBlock (r : List Char) : Option (List Char) :=
  match findIdx "维度分析与评分：".data r with
  | none => none
  | some i =>
    let rest := r.drop (i + ("维度分析与评分：".data).length)
    match findIdx "综合评分：".data rest with
    | none => none
    | some j => some (rest.take j)

/-- The composition sub-section of the dimension block
(pattern 构图：(.*?)(?=焦段：|对比度|$)). -/
def compSection (r : List Char) : Option (List Char) :=
  (dimensionBlock r).bind (subsection "构图：".data ["焦段：".data, "对比度".data])

/-- The focal-length sub-section (pattern 焦段：(.*?)(?=对比度|$)). -/
def focalSection (r : List Char) : Option (List Char) :=
  (dimensionBlock r).bind (subsection "焦段：".data ["对比度".data])

/-- The contrast/exposure/brightness sub-section
(pattern 对比度&曝光度&亮度：(.*?)(?=$|\n\n)). -/
def contrastSection (r : List Char) : Option (List Char) :=
  (dimensionBlock r).bind
    (subsection "对比度&曝光度&亮度：".data [['\n', '\n']])

/-- Digits of a decimal literal folded into a natural number. -/
def natOfDigits (l : List Char) : Nat :=
  l.foldl (fun n c => 10 * n + (c.toNat - 48)) 0

/-- Value of a decimal literal with integer digits a and fractional digits b
(Python float("a.b"), exact on decimal literals). -/
def decValue (a b : List Char) : ℚ :=
  mkRat (natOfDigits a * 10 ^ b.length + natOfDigits b) (10 ^ b.length)

/-- Match the pattern digits+ [. digits*] 分 at the head of the list (the
regex (\d+\.?\d*)分 anchored at the current scan position, with its exact
backtracking behavior: the unit character must directly follow the maximal
number literal).  On success returns the value and the remainder after 分. -/
def matchNumFen (l : List Char) : Option (ℚ × List Char) :=
  let a := l.takeWhile Char.isDigit
  if a = [] then none
  else
    match l.drop a.length with
    | '.' :: r2 =>
      let b := r2.takeWhile Char.isDigit
      match r2.drop b.length with
      | '分' :: r4 => some (decValue a b, r4)
      | _ => none
    | '分' :: r4 => some (decValue a [], r4)
    | _ => none

/-- Left-to-right non-overlapping scan collecting all matches of
(\d+\.?\d*)分 (re.findall), fuel-indexed for structural termination. -/
def scoreScanAux : Nat → List Char → List ℚ
  | 0, _ => []
  | _ + 1, [] => []
  | fuel + 1, c :: rest =>
    if c.isDigit then
      match matchNumFen (c :: rest) with
      | some (q, remaining) => q :: scoreScanAux fuel remaining
      | none => scoreScanAux fuel rest
    else scoreScanAux fuel rest

/-- All score matches of a text, in order. -/
def scoreMatches (l : List Char) : List ℚ :=
  scoreScanAux l.length l

/-- AestheticAnalyzer._extract_score: the last score match, defaulting to 0
when no match exists. -/
def extract_score (l : List Char) : ℚ :=
  match (scoreMatches l).getLast? with
  | some q => q
  | none => 0

/-- Scan for the first number on the current line (pattern .*?(\d+\.?\d*)
without DOTALL: the lazy prefix cannot cross a newline; the group matches the
maximal digits [. digits] literal starting at the first digit found). -/
def scanLineForNum (l : List Char) : Option ℚ :=
  match l with
  | [] => none
  | c :: rest =>
    if c = '\n' then none
    else if c.isDigit then
      let a := (c :: rest).takeWhile Char.isDigit
      match (c :: rest).drop a.length with
      | '.' :: r2 => some (decValue a (r2.takeWhile Char.isDigit))
      | _ => some (decValue a [])
    else scanLineForNum rest

/-- Overall score search: re.search of 综合评分：.*?(\d+\.?\d*) on the whole
raw text without DOTALL.  The leftmost occurrence of the marker that is
followed by a digit before the next newline wins; later occurrences are tried
when an earlier one has no number on its line. -/
def findOverall (l : List Char) : Option ℚ :=
  match l with
  | [] => none
  | _ :: rest =>
    if ("综合评分：".data).isPrefixOf l then
      match scanLineForNum (l.drop ("综合评分：".data).length) with
      | some q => some q
      | none => findOverall rest
    else findOverall rest

/-- The overall-evaluation-and-suggestions section
(pattern 综合评价与建议：(.*?)(?=$|\n\n\n) with DOTALL, on the raw text). -/
def evalSection (r : List Char) : Option (List Char) :=
  subsection "综合评价与建议：".data [['\n', '\n', '\n']] r

/-- The try-block of AestheticAnalyzer.parse_response, translated statement
by statement.  The body performs no failing operation, so it always returns
Except.ok; the Except type records that any exception would be absorbed by
the caller into the default record. -/
def parseResponseTry (response : String) : Except String AestheticAnalysis :=
  let r := response.data
  let comp := compSection r
  let focal := focalSection r
  let contrast := contrastSection r
  let composition_analysis :=
    match comp with | some g => String.mk (cleanText g) | none => ""
  let composition_score :=
    match comp with | some g => extract_score (stripChars g) | none => 0
  let focal_length_analysis :=
    match focal with | some g => String.mk (cleanText g) | none => ""
  let focal_length_score :=
    match focal with | some g => extract_score (stripChars g) | none => 0
  let contrast_analysis :=
    match contrast with | some g => String.mk (cleanText g) | none => ""
  let contrast_score :=
    match contrast with | some g => extract_score (stripChars g) | none => 0
  let overall_score := match findOverall r with | some q => q | none => 0
  let evalPair :=
    match evalSection r with
    | none => (("" : String), ("" : String))
    | some g =>
      let et := stripChars g
      match findIdx "建议".data et with
      | some i =>
        (String.mk (stripChars (et.take i)),
         String.mk ("建议".data ++ stripChars (et.drop (i + ("建议".data).length))))
      | none => (String.mk et, "")
  Except.ok
    { composition_analysis := composition_analysis
      focal_length_analysis := focal_length_analysis
      contrast_exposure_brightness_analysis := contrast_analysis
      overall_evaluation := evalPair.1
      suggestions := evalPair.2
      scores :=
        ⟨composition_score, focal_length_score, contrast_score, overall_score⟩ }

/-- AestheticAnalyzer.parse_response: the try-block result, with any
exception replaced by the fixed default record. -/
def parse_response (response : String) : AestheticAnalysis :=
  match parseResponseTry response with
  | .ok a => a
  | .error _ => getDefaultAnalysis

/-! ## ResourceDegradationController

The engine-invocation and resource-degradation control flow of
MultimodalInference.generate_stream (src/multimodal_inference.py lines
263-359).  The generation engine (mlx stream_generate) is an external
collaborator and is modelled as an oracle mapping the call index to either a
finished chunk list or a raised exception message.  The controller makes at
most two engine calls: the original attempt (whose chunks are fed through the
stream guard) and, on a resource-exhaustion signature when the image budget
is above the 256 floor, one retry with halved max_size, max_tokens capped at
256, and no guard on its chunk loop. -/

/-- Parameters of generate_stream relevant to the control flow. -/
structure GenRequest where
  max_tokens : Nat
  temperature : ℚ
  stop_on_repeat : Bool
  repeat_threshold : Nat
  max_size : Nat
deriving DecidableEq

/-- Result of one engine invocation: a finished stream of chunks, or an
exception with its message. -/
inductive EngineResult where
  | ok (chunks : List (List Char))
  | raise (msg : String)
deriving DecidableEq

/-- Terminal outcome vocabulary of one run (spec section 4.2). -/
inductive RunOutcome where
  | OK
  | STOPPED_EARLY
  | DEGRADED_OK
  | FAILED
deriving DecidableEq

/-- The parameters actually passed for one engine call: max_tokens and
temperature as given to stream_generate, and the max_size used to preprocess
the image for that call. -/
structure CallRecord where
  maxTokens : Nat
  temperature : ℚ
  maxImageDimension : Nat
deriving DecidableEq

/-- Everything observable about one run: the chunks/messages yielded by
generate_stream, the engine calls made with their parameters, and the
terminal outcome. -/
structure RunResult where
  yields : List (List Char)
  calls : List CallRecord
  outcome : RunOutcome
deriving DecidableEq

/-- Resource-exhaustion signature test on an exception message
(case-insensitive memory / insufficient, and the literal Metal error code). -/
def isExhaustionMsg (msg : String) : Bool :=
  containsSub "memory".data (msg.data.map Char.toLower) ||
  containsSub "insufficient".data (msg.data.map Char.toLower) ||
  containsSub "kIOGPUCommandBufferCallbackErrorOutOfMemory".data msg.data

/-- Status message yielded when the engine signals memory exhaustion. -/
def oomNotice : List Char :=
  "GPU 内存不足错误。尝试使用更小的图片或减少 max_tokens 参数。".data

/-- Status message yielded before the degraded retry. -/
def retryNotice : List Char := "尝试使用更小的图片尺寸重新处理...".data

/-- Message yielded when the image budget is already at or below the floor. -/
def cantReduceNotice : List Char :=
  "无法进一步减小图片尺寸，请尝试使用更小的图片文件。".data

/-- Message yielded when the single retry also raises. -/
def retryFailNotice (m : String) : List Char := ("重试失败: " ++ m).data

/-- Message yielded on a non-exhaustion engine error. -/
def otherErrNotice (m : String) : List Char := ("推理过程中出现错误: " ++ m).data

/-- One full run of the generation section of generate_stream against an
engine oracle.  Call 0 is the original attempt, call 1 the only possible
retry. -/
def degradationRun (req : GenRequest) (engine : Nat → EngineResult) : RunResult :=
  let callTemp := max req.temperature (mkRat 1 10)
  let rec1 : CallRecord := ⟨req.max_tokens, callTemp, req.max_size⟩
  match engine 0 with
  | .ok chunks =>
    let res := guardRunFrom req.repeat_threshold req.stop_on_repeat ⟨[], []⟩ chunks
    ⟨res.2.1, [rec1], if res.2.2 then .STOPPED_EARLY else .OK⟩
  | .raise msg =>
    if isExhaustionMsg msg then
      if 256 < req.max_size then
        let rec2 : CallRecord := ⟨min req.max_tokens 256, callTemp, req.max_size / 2⟩
        match engine 1 with
        | .ok chunks =>
          ⟨oomNotice :: retryNotice :: chunks.filter (· ≠ []), [rec1, rec2], .DEGRADED_OK⟩
        | .raise m2 =>
          ⟨[oomNotice, retryNotice, retryFailNotice m2], [rec1, rec2], .FAILED⟩
      else ⟨[oomNotice, cantReduceNotice], [rec1], .FAILED⟩
    else ⟨[otherErrNotice msg], [rec1], .FAILED⟩

/-! ## Theorems for the claims -/

/-- C1, counterexample.  The claim states that parsing the completely empty
input yields the fixed default record (all scores 5.0, all placeholder
texts).  It is false: the try-block of parse_response raises no exception on
the empty string, every marker search simply fails, and the record built from
the initialised local defaults (scores 0.0, empty texts) is returned, which
differs from the default record. -/
theorem c1_empty_counterexample :
    parse_response "" ≠ getDefaultAnalysis := by decide

/-- C1, amended.  For the completely empty input string, parse_response
returns the record with all four scores 0.0 and every narrative field the
empty string; the fixed "analysis unavailable" default record (all scores
5.0) is returned only when an exception occurs during extraction, which the
empty input does not cause. -/
theorem c1_empty_parse :
    parse_response "" =
      { composition_analysis := ""
        focal_length_analysis := ""
        contrast_exposure_brightness_analysis := ""
        overall_evaluation := ""
        suggestions := ""
        scores := ⟨0, 0, 0, 0⟩ } := by decide

/-- The concrete report text of the C8 test vector. -/
def c8input : String :=
  "维度分析与评分：构图：不错的构图。评分：7.5分 焦段：标准。评分：6分 对比度&曝光度&亮度：良好。评分：8分 综合评分：综合 7.3（说明） 综合评价与建议：整体不错。建议：可以提升。"

/-- C8.  Parsing the fixed sample report yields composition 7.5, focal
length 6.0, contrast/exposure/brightness 8.0, overall 7.3, the overall
evaluation text 整体不错。, and a suggestions text that starts with (indeed
here equals 建议：可以提升。, starting with) the suggestion keyword 建议. -/
theorem c8_sample_parse :
    (parse_response c8input).scores.composition = mkRat 15 2 ∧
    (parse_response c8input).scores.focal_length = 6 ∧
    (parse_response c8input).scores.contrast_exposure_brightness = 8 ∧
    (parse_response c8input).scores.overall = mkRat 73 10 ∧
    (parse_response c8input).overall_evaluation = "整体不错。" ∧
    (parse_response c8input).suggestions = "建议：可以提升。" ∧
    ("建议".data.isPrefixOf (parse_response c8input).suggestions.data) = true := by
  decide

/-- C9.  parse_response never fails outward: for every input it returns a
complete AestheticAnalysis (all five narrative fields and all four scores are
total fields of the record type, never absent), and the result is either the
record computed by the try-block or, had an exception occurred there, the
fully-default record. -/
theorem c9_total_parse (response : String) :
    (∃ a, parseResponseTry response = Except.ok a ∧ parse_response response = a) ∨
    parse_response response = getDefaultAnalysis := by
  cases h : parseResponseTry response with
  | ok a => exact Or.inl ⟨a, rfl, by simp [parse_response, h]⟩
  | error e => exact Or.inr (by simp [parse_response, h])

/-- Stripping the empty chunk leaves it empty, so a chunk whose stripped form
is non-empty is itself non-empty. -/
theorem strip_nonempty_of_pos {c : List Char} (h : 0 < (stripChars c).length) :
    c ≠ [] := by
  intro hc
  subst hc
  simp [stripChars] at h

/-- A chunk consisting only of whitespace strips to the empty list. -/
theorem strip_of_all_whitespace {c : List Char}
    (h : c.all Char.isWhitespace = true) : stripChars c = [] := by
  have h1 : c.dropWhile Char.isWhitespace = [] := by
    rw [List.dropWhile_eq_nil_iff]
    intro x hx
    exact List.all_eq_true.mp h x hx
  simp [stripChars, h1]

/-- C3.  For every stream state whose accumulated text exceeds 50 characters
and whose last 50 characters occur as an exact substring in the accumulated
text with the trailing 50 characters removed, observing any chunk that is
non-empty after stripping yields STOP: the long-span check is the first stop
condition evaluated and it fires. -/
theorem c3_long_span_stop (t : Nat) (s : GuardState) (c : List Char)
    (h50 : 50 < s.generated_text.length)
    (hrep : containsSub (s.generated_text.drop (s.generated_text.length - 50))
              (s.generated_text.take (s.generated_text.length - 50)) = true)
    (hc : 0 < (stripChars c).length) :
    (observe t true s c).1 = .STOP := by
  have hcne : c ≠ [] := strip_nonempty_of_pos hc
  have hl : longSpanHit s.generated_text c := ⟨h50, hrep, hc⟩
  simp [observe, hcne, hl]

/-- C3, witness: a concrete 100-character accumulated text whose last 50
characters also form its first 50 characters, observed with the chunk
"abcd". -/
theorem c3_long_span_stop_witness :
    50 < (List.replicate 100 'a').length ∧
    (observe 3 true ⟨List.replicate 100 'a', []⟩ "abcd".data).1 = .STOP :=
  ⟨by decide,
   c3_long_span_stop 3 ⟨List.replicate 100 'a', []⟩ "abcd".data
     (by decide) (by decide) (by decide)⟩

/-- C4, counterexample.  The claim states that observing an empty or
whitespace-only chunk always yields CONTINUE.  It is false: a single-space
chunk is truthy in Python, so the stop checks still run, and the
degenerate-phrase check depends only on the accumulated text; with 21
accumulated characters containing the denylist phrase 请上传, observing the
chunk " " yields STOP. -/
theorem c4_whitespace_counterexample :
    (" ".data ≠ ([] : List Char)) ∧
    " ".data.all Char.isWhitespace = true ∧
    (observe 3 true ⟨"请上传请上传请上传请上传请上传请上传请上传".data, []⟩
        " ".data).1 = .STOP := by
  decide

/-- C4, amended.  An empty chunk is a true no-op: verdict CONTINUE and the
state unchanged.  A whitespace-only chunk can never trigger the long-span or
short-span repetition stops (both require non-empty stripped text), but it is
still appended to the ring buffer, and it yields STOP exactly when the chunk
is non-empty and the accumulated text already satisfies the
degenerate-phrase condition.  observe itself is a total function and never
fails. -/
theorem c4_whitespace_noop (t : Nat) (s : GuardState) (c : List Char)
    (hws : c.all Char.isWhitespace = true) :
    observe t true s [] = (.CONTINUE, s) ∧
    ((observe t true s c).1 = .STOP ↔ (c ≠ [] ∧ denyHit s.generated_text)) := by
  refine ⟨by simp [observe], ?_⟩
  by_cases hc : c = []
  · subst hc
    simp [observe]
  · have hstrip : stripChars c = [] := strip_of_all_whitespace hws
    have hnl : ¬ longSpanHit s.generated_text c := by
      intro h
      obtain ⟨-, -, hpos⟩ := h
      rw [hstrip] at hpos
      simp at hpos
    have hns : ¬ shortSpanHit t (ringAppend t s.recent_segments c) c := by
      intro h
      obtain ⟨-, -, hpos⟩ := h
      rw [hstrip] at hpos
      simp at hpos
    by_cases hd : denyHit s.generated_text <;>
      simp [observe, hc, hnl, hns, hd]

/-- C4, witness: the amended statement applied with threshold 3, the empty
initial state and the single-space chunk. -/
theorem c4_whitespace_noop_witness :
    observe 3 true ⟨[], []⟩ [] = (.CONTINUE, ⟨[], []⟩) ∧
    ((observe 3 true ⟨[], []⟩ " ".data).1 = .STOP ↔
      (" ".data ≠ [] ∧ denyHit [])) :=
  c4_whitespace_noop 3 ⟨[], []⟩ " ".data (by decide)

/-- C5.  For every request with max_size above the 256 floor, when the
engine raises a resource-exhaustion condition on the first call: if the
second call succeeds, exactly one retry is made whose image budget is the
integer half of the original and whose token budget is min(max_tokens, 256),
the outcome is DEGRADED_OK, and the yielded stream is the two fixed status
notices followed by exactly the retry's (non-empty) chunks; if the single
retry also raises, the outcome is FAILED and still exactly two engine calls
were made. -/
theorem c5_degraded_retry (req : GenRequest) (engine : Nat → EngineResult)
    (msg : String)
    (habove : 256 < req.max_size)
    (h0 : engine 0 = .raise msg)
    (hex : isExhaustionMsg msg = true) :
    (∀ chunks, engine 1 = .ok chunks →
      (degradationRun req engine).outcome = .DEGRADED_OK ∧
      (degradationRun req engine).calls =
        [⟨req.max_tokens, max req.temperature (mkRat 1 10), req.max_size⟩,
         ⟨min req.max_tokens 256, max req.temperature (mkRat 1 10),
          req.max_size / 2⟩] ∧
      (degradationRun req engine).yields =
        oomNotice :: retryNotice :: chunks.filter (· ≠ [])) ∧
    (∀ m2, engine 1 = .raise m2 →
      (degradationRun req engine).outcome = .FAILED ∧
      (degradationRun req engine).calls.length = 2) := by
  constructor
  · intro chunks h1
    simp [degradationRun, h0, hex, habove, h1]
  · intro m2 h1
    simp [degradationRun, h0, hex, habove, h1]

/-- Engine oracle for the C5 witness: exhaustion on the first call, success
on the second. -/
def c5engine : Nat → EngineResult :=
  fun n => if n = 0 then .raise "memory" else .ok [['h', 'i']]

/-- C5, witness: a concrete request (max_tokens 512, temperature 0,
max_size 1024) against an engine that raises "memory" once and then
succeeds. -/
theorem c5_degraded_retry_witness :
    (degradationRun ⟨512, 0, true, 3, 1024⟩ c5engine).outcome = .DEGRADED_OK ∧
    (degradationRun ⟨512, 0, true, 3, 1024⟩ c5engine).calls =
      [⟨512, max 0 (mkRat 1 10), 1024⟩,
       ⟨min 512 256, max 0 (mkRat 1 10), 1024 / 2⟩] ∧
    (degradationRun ⟨512, 0, true, 3, 1024⟩ c5engine).yields =
      oomNotice :: retryNotice :: [['h', 'i']].filter (· ≠ []) :=
  (c5_degraded_retry ⟨512, 0, true, 3, 1024⟩ c5engine "memory"
    (by decide) (by decide) (by decide)).1 [['h', 'i']] (by decide)

/-- C6.  For every request with max_size at or below the 256 floor, when the
engine raises a resource-exhaustion condition, the outcome is FAILED and the
call list is exactly the single original call: no retry is attempted. -/
theorem c6_floor_failed (req : GenRequest) (engine : Nat → EngineResult)
    (msg : String)
    (hfloor : req.max_size ≤ 256)
    (h0 : engine 0 = .raise msg)
    (hex : isExhaustionMsg msg = true) :
    (degradationRun req engine).outcome = .FAILED ∧
    (degradationRun req engine).calls =
      [⟨req.max_tokens, max req.temperature (mkRat 1 10), req.max_size⟩] := by
  have h256 : ¬ (256 < req.max_size) := by omega
  simp [degradationRun, h0, hex, h256]

/-- Engine oracle for the C6 witness: always raises an exhaustion message. -/
def c6engine : Nat → EngineResult := fun _ => .raise "Insufficient Memory"

/-- C6, witness: a concrete request at the floor (max_size 256) against an
always-exhausted engine. -/
theorem c6_floor_failed_witness :
    (degradationRun ⟨512, 0, true, 3, 256⟩ c6engine).outcome = .FAILED ∧
    (degradationRun ⟨512, 0, true, 3, 256⟩ c6engine).calls =
      [⟨512, max 0 (mkRat 1 10), 256⟩] :=
  c6_floor_failed ⟨512, 0, true, 3, 256⟩ c6engine "Insufficient Memory"
    (by decide) (by decide) (by decide)

/-- C10.  Every engine call made by a run — the original attempt and, when
present, the degraded retry — is passed the temperature
max(caller temperature, 0.1); since that value is at least 0.1 it is
positive, so a caller-requested temperature of 0 is never forwarded. -/
theorem c10_temperature_floor (req : GenRequest) (engine : Nat → EngineResult) :
    ((degradationRun req engine).calls.map CallRecord.temperature) =
      List.replicate (degradationRun req engine).calls.length
        (max req.temperature (mkRat 1 10)) ∧
    (0 : ℚ) < max req.temperature (mkRat 1 10) := by
  constructor
  · rcases h0 : engine 0 with chunks | msg
    · simp [degradationRun, h0, List.replicate]
    · rcases h1 : engine 1 with c2 | m2 <;>
        by_cases hex : isExhaustionMsg msg <;>
        by_cases hsz : 256 < req.max_size <;>
        simp [degradationRun, h0, h1, hex, hsz, List.replicate]
  · exact lt_of_lt_of_le (by decide) (le_max_right _ _)

/-- _extract_score written as the claim phrases it: the last score match,
with 0 as the default for a text with no match. -/
theorem extract_score_eq_getLast (l : List Char) :
    extract_score l = ((scoreMatches l).getLast?).getD 0 := by
  unfold extract_score
  cases (scoreMatches l).getLast? <;> simp

/-- C7.  For every found dimension sub-section, parse_response's numeric
score for that dimension is the value of the last "number분-marker" match in
the stripped sub-section text (0 when no match exists), and the overall score
is the first number found after the overall-score marker scanning the entire
raw text line-wise (0 when no such match exists). -/
theorem c7_score_extraction (response : String) :
    (∀ g, compSection response.data = some g →
      (parse_response response).scores.composition =
        ((scoreMatches (stripChars g)).getLast?).getD 0) ∧
    (∀ g, focalSection response.data = some g →
      (parse_response response).scores.focal_length =
        ((scoreMatches (stripChars g)).getLast?).getD 0) ∧
    (∀ g, contrastSection response.data = some g →
      (parse_response response).scores.contrast_exposure_brightness =
        ((scoreMatches (stripChars g)).getLast?).getD 0) ∧
    (parse_response response).scores.overall =
      ((findOverall response.data).getD 0) := by
  refine ⟨fun g hg => ?_, fun g hg => ?_, fun g hg => ?_, ?_⟩ <;>
    simp only [parse_response, parseResponseTry, extract_score_eq_getLast]
  · simp [hg]
  · simp [hg]
  · simp [hg]
  · cases h : findOverall response.data <;> simp [h]

/-- Report text for the C7 witness, containing all three dimension
sub-sections and an overall score. -/
def c7input : String :=
  "维度分析与评分：构图：A。评分：4分 焦段：B。评分：3分 对比度&曝光度&亮度：C。评分：2分 综合评分：9 综合评价与建议：行。"

/-- C7, witness: the extraction characterisation applied to a concrete
report in which all three sub-sections are found. -/
theorem c7_score_extraction_witness :
    (parse_response c7input).scores.composition =
      ((scoreMatches (stripChars "A。评分：4分 ".data)).getLast?).getD 0 ∧
    (parse_response c7input).scores.focal_length =
      ((scoreMatches (stripChars "B。评分：3分 ".data)).getLast?).getD 0 ∧
    (parse_response c7input).scores.contrast_exposure_brightness =
      ((scoreMatches (stripChars "C。评分：2分 ".data)).getLast?).getD 0 ∧
    (parse_response c7input).scores.overall =
      ((findOverall c7input.data).getD 0) :=
  ⟨(c7_score_extraction c7input).1 "A。评分：4分 ".data (by decide),
   (c7_score_extraction c7input).2.1 "B。评分：3分 ".data (by decide),
   (c7_score_extraction c7input).2.2.1 "C。评分：2分 ".data (by decide),
   (c7_score_extraction c7input).2.2.2⟩

/-! ## Lemmas for the short-span saturation claim (C2) -/

/-- The last t entries of a list (all of it when it is shorter than t). -/
def lastN {α : Type} (t : Nat) (l : List α) : List α :=
  l.drop (l.length - t)

/-- The ring-buffer append always keeps exactly the last t entries. -/
theorem ringAppend_eq_lastN (t : Nat) (buf : List (List Char)) (c : List Char) :
    ringAppend t buf c = lastN t (buf ++ [c]) := by
  simp only [ringAppend, lastN]
  split_ifs with h
  · rfl
  · have h0 : (buf ++ [c]).length - t = 0 := by omega
    rw [h0, List.drop_zero]

/-- Taking the last t entries twice around an append collapses to once. -/
theorem lastN_append (t : Nat) (l m : List (List Char)) :
    lastN t (lastN t l ++ m) = lastN t (l ++ m) := by
  unfold lastN
  rw [List.drop_append_eq_append_drop, List.drop_append_eq_append_drop,
    List.drop_drop]
  congr 1
  · congr 1
    simp only [List.length_append, List.length_drop]
    omega
  · congr 1
    simp only [List.length_append, List.length_drop]
    omega

/-- The last t entries of anything followed by t copies are those copies. -/
theorem lastN_append_replicate (t : Nat) (b : List (List Char)) (c : List Char) :
    lastN t (b ++ List.replicate t c) = List.replicate t c := by
  unfold lastN
  have h0 : (b ++ List.replicate t c).length - t = b.length := by
    simp only [List.length_append, List.length_replicate]
    omega
  rw [h0, List.drop_left]

/-- A non-empty replicate buffer passes the all-identical test. -/
theorem allSame_replicate (t : Nat) (ht : 1 ≤ t) (c : List Char) :
    allSame (List.replicate t c) = true := by
  obtain ⟨j, rfl⟩ : ∃ j, t = j + 1 := ⟨t - 1, by omega⟩
  rw [List.replicate_succ]
  simp only [allSame, List.all_eq_true]
  intro x hx
  simp [List.eq_of_mem_replicate hx]

/-- A buffer of t identical entries saturates the short-span condition for a
chunk whose stripped length exceeds 3. -/
theorem shortSpanHit_replicate (t : Nat) (ht : 1 ≤ t) (c : List Char)
    (hc : 3 < (stripChars c).length) :
    shortSpanHit t (List.replicate t c) c :=
  ⟨by simp, allSame_replicate t ht c, hc⟩

/-- Observing a non-empty chunk always updates the ring buffer by the
ring-buffer append, whatever the verdict. -/
theorem observe_segments (t : Nat) (s : GuardState) (c : List Char)
    (hc : c ≠ []) :
    (observe t true s c).2.recent_segments = ringAppend t s.recent_segments c := by
  simp only [observe, if_neg hc]
  split_ifs <;> rfl

/-- If the updated ring buffer saturates the short-span condition, observing
the chunk yields STOP (whether or not the earlier long-span check also
fires). -/
theorem observe_stop_of_shortSpan (t : Nat) (s : GuardState) (c : List Char)
    (hc : c ≠ [])
    (hs : shortSpanHit t (ringAppend t s.recent_segments c) c) :
    (observe t true s c).1 = .STOP := by
  simp only [observe, if_neg hc]
  by_cases hl : longSpanHit s.generated_text c
  · simp [hl]
  · simp [hl, hs]

/-- Splitting a guard run at an append: when the whole run does not stop,
neither part stops and the final state is reached by running the second part
from the first part's final state. -/
theorem guardRunFrom_append (t : Nat) (sor : Bool) (xs ys : List (List Char)) :
    ∀ s : GuardState, (guardRunFrom t sor s (xs ++ ys)).2.2 = false →
    (guardRunFrom t sor s xs).2.2 = false ∧
    (guardRunFrom t sor (guardRunFrom t sor s xs).1 ys).2.2 = false ∧
    (guardRunFrom t sor s (xs ++ ys)).1 =
      (guardRunFrom t sor (guardRunFrom t sor s xs).1 ys).1 := by
  induction xs with
  | nil =>
    intro s h
    exact ⟨rfl, h, rfl⟩
  | cons c rest ih =>
    intro s h
    rcases hob : observe t sor s c with ⟨v, s'⟩
    cases v
    case STOP =>
      rw [List.cons_append] at h
      simp [guardRunFrom, hob] at h
    case CONTINUE =>
      rw [List.cons_append] at h
      simp only [guardRunFrom, hob] at h ⊢
      exact ih s' h

/-- Running the guard over at least one copy of a non-empty chunk without
stopping leaves the ring buffer holding the last t entries of the old buffer
followed by those copies. -/
theorem guardRunFrom_replicate_recent (t : Nat) (c : List Char) (hc : c ≠ []) :
    ∀ (j : Nat) (s : GuardState), 1 ≤ j →
    (guardRunFrom t true s (List.replicate j c)).2.2 = false →
    (guardRunFrom t true s (List.replicate j c)).1.recent_segments =
      lastN t (s.recent_segments ++ List.replicate j c) := by
  intro j
  induction j with
  | zero => intro s h1; exact absurd h1 (by omega)
  | succ j ih =>
    intro s _ h
    rcases hob : observe t true s c with ⟨v, s'⟩
    cases v
    case STOP =>
      rw [List.replicate_succ] at h
      simp [guardRunFrom, hob] at h
    case CONTINUE =>
      have hseg : s'.recent_segments = ringAppend t s.recent_segments c := by
        have hx := observe_segments t s c hc
        rw [hob] at hx
        exact hx
      rcases Nat.eq_zero_or_pos j with hj | hj
      · subst hj
        rw [List.replicate_succ, List.replicate_zero]
        simp only [guardRunFrom, hob]
        rw [hseg, ringAppend_eq_lastN]
      · have h' : (guardRunFrom t true s' (List.replicate j c)).2.2 = false := by
          rw [List.replicate_succ] at h
          simpa [guardRunFrom, hob] using h
        have hrec := ih s' hj h'
        rw [List.replicate_succ]
        simp only [guardRunFrom, hob]
        rw [hrec, hseg, ringAppend_eq_lastN, lastN_append, List.append_assoc,
          List.singleton_append]

/-- C2.  For every chunk sequence ending in repeat_threshold identical
copies of a chunk whose stripped length exceeds 3: if the guard (run from
the empty state over the prefix and the first threshold-1 copies) has not
already stopped, then observing the final copy yields STOP. -/
theorem c2_short_span_stop (t : Nat) (pre : List (List Char)) (c : List Char)
    (ht : 1 ≤ t)
    (hc : 3 < (stripChars c).length)
    (hns : (guardRunFrom t true ⟨[], []⟩
      (pre ++ List.replicate (t - 1) c)).2.2 = false) :
    (observe t true
      (guardRunFrom t true ⟨[], []⟩ (pre ++ List.replicate (t - 1) c)).1
      c).1 = .STOP := by
  have h0 : 0 < (stripChars c).length := by omega
  have hcne : c ≠ [] := strip_nonempty_of_pos h0
  obtain ⟨hpre, hrep, hstate⟩ :=
    guardRunFrom_append t true pre (List.replicate (t - 1) c) ⟨[], []⟩ hns
  apply observe_stop_of_shortSpan t _ c hcne
  rw [hstate]
  rcases Nat.lt_or_ge 1 t with ht2 | ht1
  · have hrec := guardRunFrom_replicate_recent t c hcne (t - 1)
      (guardRunFrom t true ⟨[], []⟩ pre).1 (by omega) hrep
    rw [ringAppend_eq_lastN, hrec, lastN_append, List.append_assoc]
    have hrepl : List.replicate (t - 1) c ++ [c] = List.replicate t c := by
      have := List.replicate_succ' (t - 1) c
      rw [← this]
      congr 1
      omega
    rw [hrepl, lastN_append_replicate]
    exact shortSpanHit_replicate t ht c hc
  · have ht1' : t = 1 := by omega
    subst ht1'
    simp only [Nat.sub_self, List.replicate_zero, guardRunFrom]
    rw [ringAppend_eq_lastN]
    have h1 : lastN 1 ((guardRunFrom 1 true ⟨[], []⟩ pre).1.recent_segments ++ [c]) =
        List.replicate 1 c := by
      have := lastN_append_replicate 1
        (guardRunFrom 1 true ⟨[], []⟩ pre).1.recent_segments c
      simpa [List.replicate_succ] using this
    rw [h1]
    exact shortSpanHit_replicate 1 (by omega) c hc

/-- C2, witness: threshold 3, no prefix, chunk "abcd" (stripped length 4):
running the guard over the first two copies does not stop, and the third
identical copy is stopped. -/
theorem c2_short_span_stop_witness :
    (guardRunFrom 3 true ⟨[], []⟩
      ([] ++ List.replicate (3 - 1) "abcd".data)).2.2 = false ∧
    (observe 3 true
      (guardRunFrom 3 true ⟨[], []⟩ ([] ++ List.replicate (3 - 1) "abcd".data)).1
      "abcd".data).1 = .STOP :=
  ⟨by decide, c2_short_span_stop 3 [] "abcd".data (by decide) (by decide) (by decide)⟩

end QwenInfer
